import Mathlib

/-!
Shallow embedding of the Zafs Kitchen admin back-office:
the booking / staff / user tables and their status-transition request
handlers (Electron main process), and the companion OTP login server
(send-otp and verify-otp over an in-memory map).

Conventions of the embedding:
  - a table is a list of rows; a SQL UPDATE ... WHERE id = x RETURNING *
    maps every matching row through the SET function and returns the
    updated rows (the handler reads rows[0]);
  - timestamps (NOW(), Date.now()) are milliseconds since the epoch,
    passed in as a parameter named now;
  - Math.random() is passed in as a rational q with 0 <= q < 1;
  - the session token and the email transport outcome are parameters.
-/

namespace ZafsKitchen

/-- A row of the bookings table, with the columns the handlers read and
write (the column list of the get-bookings SELECT). -/
structure Booking where
  id : Nat
  user_id : Option Nat
  full_name : String
  user_email : String
  contact_number : String
  celebrant_name : String
  celebrant_age : Nat
  guest_count : Nat
  food_package : String
  event_type : String
  event_date : String
  start_time : String
  end_time : String
  location : String
  event_theme : String
  custom_theme : String
  theme_suggestions : String
  selected_menus : String
  package_price : Int
  service_charge : Int
  charge_description : Option String
  total_price : Int
  booking_status : String
  payment_status : String
  cancellation_reason : Option String
  approval_date : Option Nat
  event_rating : Option Nat
  event_feedback : Option String
  completion_date : Option Nat
  created_at : Nat
  updated_at : Nat
  payment_deadline : Option Nat
  deriving Repr, DecidableEq

/-- A row of the staff table (columns used by update-staff-status). -/
structure Staff where
  id : Nat
  email : String
  full_name : String
  role : String
  status : String
  rejection_reason : Option String
  created_at : Nat
  updated_at : Nat
  deriving Repr, DecidableEq

/-- A row of the usertable table (columns used by update-user-status). -/
structure UserRow where
  id : Nat
  name : String
  email : String
  status : String
  avatar_url : Option String
  created_at : Nat
  updated_at : Nat
  deriving Repr, DecidableEq

/-- JavaScript truthiness of an optional string argument: null and the
empty string are falsy, any other string is truthy. -/
def truthy : Option String → Bool
  | none => false
  | some s => !(s == "")

/-- SQL UPDATE ... WHERE rowId = tid ... RETURNING: the new table, and
the first updated row (what the handlers read as result.rows[0]). -/
def tableUpdate {α : Type} (db : List α) (rowId : α → Nat) (tid : Nat)
    (f : α → α) : List α × Option α :=
  ((db.map fun r => if rowId r == tid then f r else r),
   ((db.filter fun r => rowId r == tid).map f).head?)

/-- Response shape of the booking-table handlers. -/
structure BookingResp where
  success : Bool
  error : Option String
  booking : Option Booking
  deriving Repr, DecidableEq

/-- Shared shape of every booking handler: run the UPDATE, answer with
the updated row on a hit and with the error message on a miss. -/
def rowUpdate (db : List Booking) (bid : Nat) (f : Booking → Booking) :
    BookingResp × List Booking :=
  match tableUpdate db Booking.id bid f with
  | (db2, some r) => ({ success := true, error := none, booking := some r }, db2)
  | (db2, none) =>
      ({ success := false, error := some "Booking not found", booking := none }, db2)

/-- The update-booking-status handler: three branches on the
caller-supplied status string, mirroring the three SQL statements. -/
def update_booking_status (db : List Booking) (bookingId : Nat)
    (status : String) (cancellationReason : Option String) (now : Nat) :
    BookingResp × List Booking :=
  if status == "rejected" && truthy cancellationReason then
    rowUpdate db bookingId fun b =>
      { b with booking_status := status, cancellation_reason := cancellationReason,
               updated_at := now }
  else if status == "approved" then
    rowUpdate db bookingId fun b =>
      { b with booking_status := status, cancellation_reason := none,
               approval_date := some now, updated_at := now }
  else
    rowUpdate db bookingId fun b =>
      { b with booking_status := status, cancellation_reason := none,
               updated_at := now }

/-- The mark-payment-as-paid handler. -/
def mark_payment_as_paid (db : List Booking) (bookingId now : Nat) :
    BookingResp × List Booking :=
  rowUpdate db bookingId fun b =>
    { b with payment_status := "paid", updated_at := now }

/-- The add-service-charge handler; the amount argument is only logged
by the source, the SQL uses description, newServiceCharge, newTotal. -/
def add_service_charge (db : List Booking) (bookingId : Nat)
    (description : String) (amount newServiceCharge newTotal : Int)
    (now : Nat) : BookingResp × List Booking :=
  rowUpdate db bookingId fun b =>
    { b with charge_description := some description,
             service_charge := newServiceCharge, total_price := newTotal,
             updated_at := now }

/-- The complete-booking handler; the rating argument is unused by the
source SQL (feedback only). -/
def complete_booking (db : List Booking) (bookingId : Nat)
    (rating : Option Nat) (feedback : Option String) (now : Nat) :
    BookingResp × List Booking :=
  rowUpdate db bookingId fun b =>
    { b with booking_status := "completed", event_feedback := feedback,
             completion_date := some now, updated_at := now }

/-- The set-payment-deadline handler: 20 hours from now, in ms. -/
def set_payment_deadline (db : List Booking) (bookingId now : Nat) :
    BookingResp × List Booking :=
  rowUpdate db bookingId fun b =>
    { b with payment_deadline := some (now + 20 * 60 * 60 * 1000),
             updated_at := now }

/-- WHERE clause of the expiry sweep, translated from the SQL. -/
def expiredCond (now : Nat) (b : Booking) : Bool :=
  b.booking_status == "approved" && !(b.payment_status == "paid") &&
    match b.payment_deadline with
    | some d => decide (d < now)
    | none => false

/-- SET clause of the expiry sweep. -/
def cancelSet (now : Nat) (b : Booking) : Booking :=
  { b with booking_status := "cancelled", updated_at := now,
           cancellation_reason := some "Payment not received within 20-hour deadline" }

/-- Projection of the sweep RETURNING id, full_name, user_email. -/
structure CancelledRow where
  id : Nat
  full_name : String
  user_email : String
  deriving Repr, DecidableEq

/-- Response shape of the check-expired-bookings handler. -/
structure ExpiredResp where
  success : Bool
  cancelled : Nat
  bookings : List CancelledRow
  error : Option String
  deriving Repr, DecidableEq

/-- The check-expired-bookings handler: one UPDATE over the whole table,
then a branch on whether any row was affected. -/
def check_expired_bookings (db : List Booking) (now : Nat) :
    ExpiredResp × List Booking :=
  let db2 := db.map fun b => if expiredCond now b then cancelSet now b else b
  let rows := (db.filter (expiredCond now)).map (cancelSet now)
  let ret := rows.map fun b =>
    ({ id := b.id, full_name := b.full_name, user_email := b.user_email } : CancelledRow)
  if rows.length > 0 then
    ({ success := true, cancelled := rows.length, bookings := ret, error := none }, db2)
  else
    ({ success := true, cancelled := 0, bookings := [], error := none }, db2)

/-- Response shape of the staff handlers. -/
structure StaffResp where
  success : Bool
  error : Option String
  staff : Option Staff
  deriving Repr, DecidableEq

/-- The update-staff-status handler: the rejected-with-reason branch
stores the reason, every other branch clears it. -/
def update_staff_status (db : List Staff) (staffId : Nat) (status : String)
    (rejectionReason : Option String) (now : Nat) : StaffResp × List Staff :=
  let f : Staff → Staff :=
    if status == "rejected" && truthy rejectionReason then
      fun s => { s with status := status, rejection_reason := rejectionReason,
                        updated_at := now }
    else
      fun s => { s with status := status, rejection_reason := none,
                        updated_at := now }
  match tableUpdate db Staff.id staffId f with
  | (db2, some r) => ({ success := true, error := none, staff := some r }, db2)
  | (db2, none) =>
      ({ success := false, error := some "Staff not found", staff := none }, db2)

/-- Response shape of the user handlers. -/
structure UserResp where
  success : Bool
  error : Option String
  user : Option UserRow
  deriving Repr, DecidableEq

/-- The update-user-status handler. -/
def update_user_status (db : List UserRow) (userId : Nat) (status : String)
    (now : Nat) : UserResp × List UserRow :=
  let f : UserRow → UserRow := fun u => { u with status := status, updated_at := now }
  match tableUpdate db UserRow.id userId f with
  | (db2, some r) => ({ success := true, error := none, user := some r }, db2)
  | (db2, none) =>
      ({ success := false, error := some "User not found", user := none }, db2)

/-- One value of the in-memory OTP map: the code and its expiry time. -/
structure OtpEntry where
  otp : String
  expires : Nat
  deriving Repr, DecidableEq

/-- The in-memory OTP map, keyed by the email string exactly as given. -/
abbrev OtpStore := List (String × OtpEntry)

/-- Map lookup. -/
def mapGet (s : OtpStore) (k : String) : Option OtpEntry :=
  (s.find? fun p => p.1 == k).map fun p => p.2

/-- Map insert-or-overwrite: at most one entry per key survives. -/
def mapSet (s : OtpStore) (k : String) (v : OtpEntry) : OtpStore :=
  (k, v) :: s.filter fun p => !(p.1 == k)

/-- Map deletion. -/
def mapDelete (s : OtpStore) (k : String) : OtpStore :=
  s.filter fun p => !(p.1 == k)

/-- JavaScript toLowerCase, as a character-by-character map. -/
def toLowerCase (s : String) : String := String.mk (s.data.map Char.toLower)

/-- The integer Math.floor(100000 + q * 900000) drawn by send-otp,
where q stands for the Math.random() sample. -/
def genOtpNum (q : ℚ) : ℤ := ((100000 : ℚ) + q * 900000).floor

/-- The OTP code string: the decimal rendering of the drawn integer. -/
def genOtp (q : ℚ) : String := toString (genOtpNum q)

/-- Response shape of the two OTP endpoints that carry no token. -/
structure OtpResp where
  success : Bool
  message : String
  deriving Repr, DecidableEq

/-- The send-otp endpoint. The admin check compares lower-cased emails;
the code is stored under the exact email key with a 5-minute expiry
before the email is sent, so the store keeps the entry even when the
transport fails (emailOk false). -/
def send_otp (store : OtpStore) (adminEmail email : String) (now : Nat)
    (q : ℚ) (emailOk : Bool) : OtpResp × OtpStore :=
  if !(toLowerCase email == toLowerCase adminEmail) then
    ({ success := false,
       message := "Unauthorized email. Only admin can access this system." }, store)
  else
    let store2 := mapSet store email
      { otp := genOtp q, expires := now + 5 * 60 * 1000 }
    if emailOk then
      ({ success := true, message := "OTP sent successfully to your email" }, store2)
    else
      ({ success := false, message := "Failed to send OTP. Please try again." }, store2)

/-- Response shape of the verify-otp endpoint. -/
structure VerifyResp where
  success : Bool
  message : String
  token : Option String
  deriving Repr, DecidableEq

/-- The verify-otp endpoint: admin check, lookup, expiry check (which
deletes on expiry), code comparison, then delete-and-issue-token. -/
def verify_otp (store : OtpStore) (adminEmail email otp : String)
    (now : Nat) (sessionToken : String) : VerifyResp × OtpStore :=
  if !(toLowerCase email == toLowerCase adminEmail) then
    ({ success := false, message := "Unauthorized access", token := none }, store)
  else
    match mapGet store email with
    | none =>
        ({ success := false,
           message := "OTP expired or not found. Please request a new one.",
           token := none }, store)
    | some stored =>
        if now > stored.expires then
          ({ success := false, message := "OTP has expired. Please request a new one.",
             token := none }, mapDelete store email)
        else if !(stored.otp == otp) then
          ({ success := false, message := "Invalid OTP. Please check and try again.",
             token := none }, store)
        else
          ({ success := true, message := "Login successful",
             token := some sessionToken }, mapDelete store email)

/-- The sweep condition can only fail or hit: decidability of the
deadline clause of the claim. -/
instance decDeadlinePassed (o : Option Nat) (now : Nat) :
    Decidable (∃ d, o = some d ∧ d < now) :=
  match o with
  | none => isFalse (by rintro ⟨d, hd, _⟩; exact Option.noConfusion hd)
  | some d =>
      if h : d < now then isTrue ⟨d, rfl, h⟩
      else
        isFalse (by
          rintro ⟨d2, hd, hlt⟩
          rw [Option.some.injEq] at hd
          exact h (hd ▸ hlt))

/-- Spec-side sweep predicate, written from the claim wording: approved,
payment status not paid, and a non-null deadline strictly before now. -/
def sweepHits (now : Nat) (b : Booking) : Bool :=
  decide (b.booking_status = "approved" ∧ b.payment_status ≠ "paid" ∧
    ∃ d, b.payment_deadline = some d ∧ d < now)

/-- The five booking statuses of the data model. -/
def validBookingStatuses : List String :=
  ["pending", "approved", "rejected", "cancelled", "completed"]

/-- Spec-side frame relation for update-booking-status, written from the
claim: every column other than booking_status, cancellation_reason,
approval_date and updated_at is preserved, a row with a different id is
fully preserved, and approval_date is preserved unless the new status is
approved. -/
def FrameOk (bid : Nat) (status : String) (b b2 : Booking) : Prop :=
  b2.id = b.id ∧ b2.user_id = b.user_id ∧ b2.full_name = b.full_name ∧
  b2.user_email = b.user_email ∧ b2.contact_number = b.contact_number ∧
  b2.celebrant_name = b.celebrant_name ∧ b2.celebrant_age = b.celebrant_age ∧
  b2.guest_count = b.guest_count ∧ b2.food_package = b.food_package ∧
  b2.event_type = b.event_type ∧ b2.event_date = b.event_date ∧
  b2.start_time = b.start_time ∧ b2.end_time = b.end_time ∧
  b2.location = b.location ∧ b2.event_theme = b.event_theme ∧
  b2.custom_theme = b.custom_theme ∧ b2.theme_suggestions = b.theme_suggestions ∧
  b2.selected_menus = b.selected_menus ∧ b2.package_price = b.package_price ∧
  b2.service_charge = b.service_charge ∧
  b2.charge_description = b.charge_description ∧ b2.total_price = b.total_price ∧
  b2.payment_status = b.payment_status ∧ b2.event_rating = b.event_rating ∧
  b2.event_feedback = b.event_feedback ∧ b2.completion_date = b.completion_date ∧
  b2.created_at = b.created_at ∧ b2.payment_deadline = b.payment_deadline ∧
  (b.id ≠ bid → b2 = b) ∧ (status ≠ "approved" → b2.approval_date = b.approval_date)

/-- A concrete well-formed booking used by concrete instances. -/
def exampleBooking : Booking :=
  { id := 1, user_id := some 7, full_name := "Ana Cruz",
    user_email := "ana@mail.com", contact_number := "0917",
    celebrant_name := "Ana", celebrant_age := 18, guest_count := 50,
    food_package := "A", event_type := "Birthday", event_date := "2025-01-01",
    start_time := "10:00", end_time := "14:00", location := "Manila",
    event_theme := "Classic", custom_theme := "", theme_suggestions := "",
    selected_menus := "[]", package_price := 10000, service_charge := 0,
    charge_description := none, total_price := 10000,
    booking_status := "pending", payment_status := "unpaid",
    cancellation_reason := none, approval_date := none, event_rating := none,
    event_feedback := none, completion_date := none, created_at := 0,
    updated_at := 0, payment_deadline := none }

end ZafsKitchen

namespace ZafsKitchen

/-- Mapping a function that fixes every member of a list is the identity. -/
lemma map_id_of_eq {α : Type} (l : List α) (f : α → α)
    (h : ∀ a ∈ l, f a = a) : l.map f = l := by
  induction l with
  | nil => rfl
  | cons x xs ih =>
      have hx := h x (List.mem_cons_self x xs)
      have hxs : ∀ a ∈ xs, f a = a := fun a ha => h a (List.mem_cons_of_mem x ha)
      rw [List.map_cons, hx, ih hxs]

/-- Filtering with a predicate that rejects every member gives nil. -/
lemma filter_nil_of_none {α : Type} (l : List α) (p : α → Bool)
    (h : ∀ a ∈ l, p a = false) : l.filter p = [] := by
  induction l with
  | nil => rfl
  | cons x xs ih =>
      have hx := h x (List.mem_cons_self x xs)
      have hxs : ∀ a ∈ xs, p a = false := fun a ha => h a (List.mem_cons_of_mem x ha)
      simp [List.filter_cons, hx, ih hxs]

/-- The first hit of find? is the head of the filtered list. -/
lemma find?_eq_head_filter {α : Type} (l : List α) (p : α → Bool) :
    l.find? p = (l.filter p).head? := by
  induction l with
  | nil => rfl
  | cons x xs ih =>
      by_cases hx : p x = true
      · rw [List.find?_cons_of_pos _ hx, List.filter_cons_of_pos hx,
          List.head?_cons]
      · rw [List.find?_cons_of_neg _ hx, List.filter_cons_of_neg hx, ih]

/-- An UPDATE whose WHERE clause matches no row returns the table
unchanged and no rows. -/
lemma tableUpdate_miss {α : Type} (db : List α) (rowId : α → Nat) (tid : Nat)
    (f : α → α) (h : ∀ r ∈ db, rowId r ≠ tid) :
    tableUpdate db rowId tid f = (db, none) := by
  have hp : ∀ r ∈ db, (rowId r == tid) = false := by
    intro r hr
    simpa using h r hr
  have h1 : (db.map fun r => if rowId r == tid then f r else r) = db :=
    map_id_of_eq _ _ (fun a ha => by simp [hp a ha])
  have h2 : (db.filter fun r => rowId r == tid) = [] := filter_nil_of_none _ _ hp
  unfold tableUpdate
  rw [h1, h2]
  rfl

/-- An UPDATE whose WHERE clause has the first match b returns f b as
its first returned row. -/
lemma tableUpdate_hit {α : Type} (db : List α) (rowId : α → Nat) (tid : Nat)
    (f : α → α) (b : α) (h : db.find? (fun r => rowId r == tid) = some b) :
    (tableUpdate db rowId tid f).2 = some (f b) := by
  rw [find?_eq_head_filter] at h
  unfold tableUpdate
  cases hfil : db.filter (fun r => rowId r == tid) with
  | nil => rw [hfil] at h; simp at h
  | cons r t =>
      rw [hfil] at h
      simp only [List.head?_cons, Option.some.injEq] at h
      simp [hfil, h]

/-- The table produced by rowUpdate, in either branch. -/
lemma rowUpdate_snd (db : List Booking) (bid : Nat) (f : Booking → Booking) :
    (rowUpdate db bid f).2 = db.map fun b => if b.id == bid then f b else b := by
  rw [rowUpdate]
  rcases htu : tableUpdate db Booking.id bid f with ⟨db2, r⟩
  have ht : db2 = db.map fun b => if b.id == bid then f b else b := by
    have hx := congrArg Prod.fst htu
    simpa [tableUpdate] using hx.symm
  cases r <;> simp [ht]

/-- A booking UPDATE on an id that exists nowhere: error response and an
unchanged table. -/
lemma rowUpdate_miss (db : List Booking) (bid : Nat) (f : Booking → Booking)
    (h : ∀ b ∈ db, b.id ≠ bid) :
    rowUpdate db bid f =
      ({ success := false, error := some "Booking not found", booking := none }, db) := by
  rw [rowUpdate, tableUpdate_miss db Booking.id bid f h]

/-- A booking UPDATE whose id has first match b: success response
carrying the updated row. -/
lemma rowUpdate_hit (db : List Booking) (bid : Nat) (f : Booking → Booking)
    (b : Booking) (h : db.find? (fun r => r.id == bid) = some b) :
    (rowUpdate db bid f).1 =
      { success := true, error := none, booking := some (f b) } := by
  rw [rowUpdate]
  rcases htu : tableUpdate db Booking.id bid f with ⟨db2, r⟩
  have h2 : r = some (f b) := by
    have hx := tableUpdate_hit db Booking.id bid f b h
    rw [htu] at hx
    exact hx
  subst h2
  rfl

/-- The translated WHERE clause agrees with the claim wording. -/
lemma expiredCond_eq_sweepHits (now : Nat) (b : Booking) :
    expiredCond now b = sweepHits now b := by
  unfold expiredCond sweepHits
  cases hd : b.payment_deadline with
  | none => simp [hd]
  | some d =>
      by_cases h1 : b.booking_status = "approved" <;>
        by_cases h2 : b.payment_status = "paid" <;>
          by_cases h3 : d < now <;> simp [hd, h1, h2, h3]

end ZafsKitchen

namespace ZafsKitchen

/-- C1: for every table state, the expiry sweep cancels exactly the
bookings that are approved, not paid, and hold a non-null payment
deadline strictly before the current time; each gets the fixed
cancellation reason, every other row is unchanged, and the handler
answers success with the count and the projected list of the rows it
cancelled (count 0 and the empty list when none qualify). -/
theorem check_expired_bookings_spec (db : List Booking) (now : Nat) :
    check_expired_bookings db now =
      ({ success := true,
         cancelled := (db.filter (sweepHits now)).length,
         bookings := (db.filter (sweepHits now)).map fun b =>
           { id := b.id, full_name := b.full_name, user_email := b.user_email },
         error := none },
       db.map fun b =>
         if sweepHits now b then
           { b with booking_status := "cancelled", updated_at := now,
                    cancellation_reason :=
                      some "Payment not received within 20-hour deadline" }
         else b) := by
  have hfn : expiredCond now = sweepHits now := funext (expiredCond_eq_sweepHits now)
  have hproj : ∀ l : List Booking,
      (l.map (cancelSet now)).map (fun b =>
          ({ id := b.id, full_name := b.full_name,
             user_email := b.user_email } : CancelledRow)) =
        l.map fun b =>
          ({ id := b.id, full_name := b.full_name,
             user_email := b.user_email } : CancelledRow) := by
    intro l
    rw [List.map_map]
    rfl
  unfold check_expired_bookings
  rw [hfn]
  by_cases hlen : ((db.filter (sweepHits now)).map (cancelSet now)).length > 0
  · simp only [hlen, if_pos]
    rw [hproj, List.length_map]
    rfl
  · simp only [hlen, if_neg, not_false_iff]
    have h0 : ((db.filter (sweepHits now)).map (cancelSet now)).length = 0 :=
      Nat.eq_zero_of_not_pos hlen
    rw [List.length_map] at h0
    have hnil : db.filter (sweepHits now) = [] := List.eq_nil_of_length_eq_zero h0
    rw [hnil]
    rfl

end ZafsKitchen

namespace ZafsKitchen

/-- A set entry is what a lookup at its key returns. -/
lemma mapGet_mapSet_self (s : OtpStore) (k : String) (v : OtpEntry) :
    mapGet (mapSet s k v) k = some v := by
  unfold mapGet mapSet
  rw [List.find?_cons_of_pos _ (by simp)]
  rfl

/-- Deleting a key makes lookups at that key miss. -/
lemma mapGet_mapDelete_self (s : OtpStore) (k : String) :
    mapGet (mapDelete s k) k = none := by
  unfold mapGet mapDelete
  induction s with
  | nil => rfl
  | cons x xs ih =>
      by_cases hx : (x.1 == k) = true
      · simp only [List.filter_cons, hx, Bool.not_true, Bool.false_eq_true,
          if_false]
        exact ih
      · have hx2 : (x.1 == k) = false := by simpa using hx
        simp only [List.filter_cons, hx2, Bool.not_false, if_true]
        rw [List.find?_cons_of_neg _ (by simp [hx2])]
        exact ih

/-- After a set, exactly one entry of the store carries its key. -/
lemma filter_mapSet_key (s : OtpStore) (k : String) (v : OtpEntry) :
    (mapSet s k v).filter (fun p => p.1 == k) = [(k, v)] := by
  have h2 : (s.filter fun p => !(p.1 == k)).filter (fun p => p.1 == k) = [] := by
    apply filter_nil_of_none
    intro a ha
    have hmem := (List.mem_filter.mp ha).2
    simpa using hmem
  unfold mapSet
  rw [List.filter_cons_of_pos (by simp), h2]

/-- Full case analysis of verify-otp: when it succeeds, what its store
becomes on success, and when a token is present. -/
lemma verify_otp_characterization (store : OtpStore)
    (adminEmail email otp tok : String) (now : Nat) :
    ((verify_otp store adminEmail email otp now tok).1.success = true ↔
      ((toLowerCase email == toLowerCase adminEmail) = true ∧
        ∃ e, mapGet store email = some e ∧ ¬ now > e.expires ∧ e.otp = otp)) ∧
    ((verify_otp store adminEmail email otp now tok).1.success = true →
      (verify_otp store adminEmail email otp now tok).2 =
        mapDelete store email) ∧
    ((verify_otp store adminEmail email otp now tok).1.success = false →
      (verify_otp store adminEmail email otp now tok).1.token = none) ∧
    ((verify_otp store adminEmail email otp now tok).1.success = true →
      (verify_otp store adminEmail email otp now tok).1.token = some tok) := by
  unfold verify_otp
  by_cases hadm : (toLowerCase email == toLowerCase adminEmail) = true
  · simp only [hadm, Bool.not_true, Bool.false_eq_true, if_false]
    cases hget : mapGet store email with
    | none => simp
    | some e =>
        by_cases hexp : now > e.expires
        · simp [hexp]
        · by_cases hotp : (e.otp == otp) = true
          · have heq : e.otp = otp := by simpa using hotp
            have hle : now ≤ e.expires := Nat.le_of_not_lt hexp
            simp [hexp, hotp, heq, hle]
          · have hne2 : ¬ e.otp = otp := by simpa using hotp
            simp [hexp, hotp, hne2]
  · have hadm2 : (toLowerCase email == toLowerCase adminEmail) = false := by
      simpa using hadm
    simp [hadm2]

/-- The store send-otp leaves for the admin email, whatever the email
transport does. -/
lemma send_otp_snd_admin (store : OtpStore) (adminEmail email : String)
    (now : Nat) (q : ℚ) (emailOk : Bool)
    (hbeq : (toLowerCase email == toLowerCase adminEmail) = true) :
    (send_otp store adminEmail email now q emailOk).2 =
      mapSet store email { otp := genOtp q, expires := now + 5 * 60 * 1000 } := by
  unfold send_otp
  cases emailOk <;> simp [hbeq]

/-- The drawn integer lies between 100000 and 999999 whenever the random
sample lies in the unit interval. -/
lemma genOtpNum_bounds (q : ℚ) (hq0 : 0 ≤ q) (hq1 : q < 1) :
    100000 ≤ genOtpNum q ∧ genOtpNum q ≤ 999999 := by
  have hrfl : genOtpNum q = ⌊(100000 : ℚ) + q * 900000⌋ := rfl
  constructor
  · rw [hrfl]
    apply Int.le_floor.mpr
    push_cast
    nlinarith
  · rw [hrfl]
    have h2 : ⌊(100000 : ℚ) + q * 900000⌋ < 1000000 := by
      rw [Int.floor_lt]
      push_cast
      nlinarith
    omega

end ZafsKitchen

namespace ZafsKitchen

/-- The table the expiry sweep leaves, in either branch. -/
lemma check_expired_snd (db : List Booking) (now : Nat) :
    (check_expired_bookings db now).2 =
      db.map fun b => if expiredCond now b then cancelSet now b else b := by
  unfold check_expired_bookings
  by_cases h : ((db.filter (expiredCond now)).map (cancelSet now)).length > 0
  · simp only [h, if_pos]
  · simp only [h, if_neg, not_false_iff]

/-- Mapping a function that preserves a row-wise invariant preserves
that invariant across the table. -/
lemma rowPred_map (P : Booking → Prop) (db : List Booking)
    (g : Booking → Booking) (hdb : ∀ b ∈ db, P b)
    (hg : ∀ b, P b → P (g b)) : ∀ b2 ∈ db.map g, P b2 := by
  intro b2 hb2
  rcases List.mem_map.mp hb2 with ⟨a, ha, rfl⟩
  exact hg a (hdb a ha)

/-- A conditional update preserves a row-wise invariant when its SET
function does. -/
lemma rowPred_ite (P : Booking → Prop) (p : Booking → Bool)
    (f : Booking → Booking) (hf : ∀ b, P b → P (f b)) :
    ∀ b, P b → P (if p b then f b else b) := by
  intro b hb
  by_cases h : p b = true
  · simpa [h] using hf b hb
  · have h2 : p b = false := by simpa using h
    simpa [h2] using hb

/-- A list is Forall₂-related to its image under g when every member is
related to its own image. -/
lemma forallTwo_map_self {α : Type} (R : α → α → Prop) (l : List α)
    (g : α → α) (h : ∀ a ∈ l, R a (g a)) : List.Forall₂ R l (l.map g) := by
  induction l with
  | nil => exact List.Forall₂.nil
  | cons x xs ih =>
      exact List.Forall₂.cons (h x (List.mem_cons_self x xs))
        (ih fun a ha => h a (List.mem_cons_of_mem x ha))

end ZafsKitchen

namespace ZafsKitchen

/-- C2: for every booking id for which a row exists, set-payment-deadline
sets that row's payment_deadline to exactly 20 hours (20 * 60 * 60 * 1000
milliseconds) after the current time and refreshes updated_at, changes
nothing else in the table, and answers success with the updated row. -/
theorem set_payment_deadline_spec (db : List Booking) (bid now : Nat) :
    ((set_payment_deadline db bid now).2 =
      db.map fun b =>
        if b.id == bid then
          { b with payment_deadline := some (now + 20 * 60 * 60 * 1000),
                   updated_at := now }
        else b) ∧
    ∀ b, db.find? (fun r => r.id == bid) = some b →
      (set_payment_deadline db bid now).1 =
        { success := true, error := none,
          booking := some { b with
            payment_deadline := some (now + 20 * 60 * 60 * 1000),
            updated_at := now } } := by
  constructor
  · exact rowUpdate_snd db bid _
  · intro b hb
    exact rowUpdate_hit db bid _ b hb

/-- C2 witness: one concrete booking with id 1, updated at time 50. -/
theorem set_payment_deadline_spec_witness :
    [exampleBooking].find? (fun r => r.id == 1) = some exampleBooking ∧
    (set_payment_deadline [exampleBooking] 1 50).1 =
      { success := true, error := none,
        booking := some { exampleBooking with
          payment_deadline := some (50 + 20 * 60 * 60 * 1000),
          updated_at := 50 } } :=
  ⟨by decide,
   (set_payment_deadline_spec [exampleBooking] 1 50).2 exampleBooking (by decide)⟩

/-- C8: each of the seven row-updating handlers, called with an id that
matches no row, answers success false with its not-found message and
leaves its table unchanged. -/
theorem not_found_responses (db : List Booking) (sdb : List Staff)
    (udb : List UserRow) (bid sid uid now : Nat) (status : String)
    (reason : Option String) (description : String)
    (amount newServiceCharge newTotal : Int) (rating : Option Nat)
    (feedback : Option String)
    (hb : ∀ b ∈ db, b.id ≠ bid) (hs : ∀ s ∈ sdb, s.id ≠ sid)
    (hu : ∀ u ∈ udb, u.id ≠ uid) :
    update_booking_status db bid status reason now =
      ({ success := false, error := some "Booking not found",
         booking := none }, db) ∧
    mark_payment_as_paid db bid now =
      ({ success := false, error := some "Booking not found",
         booking := none }, db) ∧
    add_service_charge db bid description amount newServiceCharge newTotal now =
      ({ success := false, error := some "Booking not found",
         booking := none }, db) ∧
    complete_booking db bid rating feedback now =
      ({ success := false, error := some "Booking not found",
         booking := none }, db) ∧
    set_payment_deadline db bid now =
      ({ success := false, error := some "Booking not found",
         booking := none }, db) ∧
    update_staff_status sdb sid status reason now =
      ({ success := false, error := some "Staff not found",
         staff := none }, sdb) ∧
    update_user_status udb uid status now =
      ({ success := false, error := some "User not found",
         user := none }, udb) := by
  refine ⟨?_, ?_, ?_, ?_, ?_, ?_, ?_⟩
  · unfold update_booking_status
    split
    · exact rowUpdate_miss db bid _ hb
    · split
      · exact rowUpdate_miss db bid _ hb
      · exact rowUpdate_miss db bid _ hb
  · exact rowUpdate_miss db bid _ hb
  · exact rowUpdate_miss db bid _ hb
  · exact rowUpdate_miss db bid _ hb
  · exact rowUpdate_miss db bid _ hb
  · simp only [update_staff_status]
    rw [tableUpdate_miss sdb Staff.id sid _ hs]
  · simp only [update_user_status]
    rw [tableUpdate_miss udb UserRow.id uid _ hu]

/-- C8 witness: every handler misses on an empty table. -/
theorem not_found_responses_witness :
    update_booking_status ([] : List Booking) 1 "approved" none 5 =
      ({ success := false, error := some "Booking not found",
         booking := none }, []) ∧
    update_staff_status ([] : List Staff) 3 "approved" none 5 =
      ({ success := false, error := some "Staff not found",
         staff := none }, []) ∧
    update_user_status ([] : List UserRow) 2 "blocked" 5 =
      ({ success := false, error := some "User not found",
         user := none }, []) := by
  have h := not_found_responses [] [] [] 1 3 2 5 "approved" none "d" 0 0 0
    none none (by simp) (by simp) (by simp)
  exact ⟨h.1, h.2.2.2.2.2.1, h.2.2.2.2.2.2⟩

end ZafsKitchen

namespace ZafsKitchen

/-- C9: update-booking-status touches, on the targeted row, only
booking_status, cancellation_reason, approval_date and updated_at
(approval_date only when the new status is approved), and leaves every
other column and every other row unchanged. -/
theorem update_booking_status_frame (db : List Booking) (bid : Nat)
    (status : String) (reason : Option String) (now : Nat) :
    List.Forall₂ (FrameOk bid status) db
      (update_booking_status db bid status reason now).2 := by
  unfold update_booking_status
  split
  · rw [rowUpdate_snd]
    refine forallTwo_map_self _ db _ fun b hb => ?_
    by_cases hid : (b.id == bid) = true
    · have hbid : b.id = bid := by simpa using hid
      simp [hid, FrameOk, hbid]
    · have hid2 : (b.id == bid) = false := by simpa using hid
      simp [hid2, FrameOk]
  · split
    next hst =>
      rw [rowUpdate_snd]
      have hst2 : status = "approved" := by simpa using hst
      refine forallTwo_map_self _ db _ fun b hb => ?_
      by_cases hid : (b.id == bid) = true
      · have hbid : b.id = bid := by simpa using hid
        simp [hid, FrameOk, hbid, hst2]
      · have hid2 : (b.id == bid) = false := by simpa using hid
        simp [hid2, FrameOk]
    next =>
      rw [rowUpdate_snd]
      refine forallTwo_map_self _ db _ fun b hb => ?_
      by_cases hid : (b.id == bid) = true
      · have hbid : b.id = bid := by simpa using hid
        simp [hid, FrameOk, hbid]
      · have hid2 : (b.id == bid) = false := by simpa using hid
        simp [hid2, FrameOk]

/-- C9 witness: the frame relation on a concrete approval call. -/
theorem update_booking_status_frame_witness :
    List.Forall₂ (FrameOk 1 "approved") [exampleBooking]
      (update_booking_status [exampleBooking] 1 "approved" none 50).2 :=
  update_booking_status_frame [exampleBooking] 1 "approved" none 50

end ZafsKitchen

namespace ZafsKitchen

/-- C4 counterexample: one update-booking-status call on a well-formed
table stores the caller-supplied string banana verbatim, a value outside
the five-status set of the data model. -/
theorem update_booking_status_escapes :
    ((update_booking_status [exampleBooking] 1 "banana" none 50).2.map
      Booking.booking_status) = ["banana"] ∧
    ¬ ("banana" ∈ validBookingStatuses) := by
  decide

/-- C4 amended: on a table whose payment_status values lie in the
two-value set, every handler call keeps them there, whatever status
string the caller supplies (each handler preserves payment_status or
sets it to paid); booking_status stays in the five-value set only
provided the table starts inside it and the status argument of
update-booking-status is itself in that set — the handler stores the
caller-supplied string verbatim. -/
theorem booking_status_set_preserved (db : List Booking) (bid now : Nat)
    (status : String) (reason : Option String) (description : String)
    (amount newServiceCharge newTotal : Int) (rating : Option Nat)
    (feedback : Option String)
    (hpay : ∀ b ∈ db, b.payment_status ∈ ["unpaid", "paid"]) :
    ((∀ b2 ∈ (update_booking_status db bid status reason now).2,
        b2.payment_status ∈ ["unpaid", "paid"]) ∧
      (∀ b2 ∈ (mark_payment_as_paid db bid now).2,
        b2.payment_status ∈ ["unpaid", "paid"]) ∧
      (∀ b2 ∈ (add_service_charge db bid description amount newServiceCharge
          newTotal now).2, b2.payment_status ∈ ["unpaid", "paid"]) ∧
      (∀ b2 ∈ (complete_booking db bid rating feedback now).2,
        b2.payment_status ∈ ["unpaid", "paid"]) ∧
      (∀ b2 ∈ (set_payment_deadline db bid now).2,
        b2.payment_status ∈ ["unpaid", "paid"]) ∧
      (∀ b2 ∈ (check_expired_bookings db now).2,
        b2.payment_status ∈ ["unpaid", "paid"])) ∧
    ((∀ b ∈ db, b.booking_status ∈ validBookingStatuses) →
      status ∈ validBookingStatuses →
      ((∀ b2 ∈ (update_booking_status db bid status reason now).2,
          b2.booking_status ∈ validBookingStatuses) ∧
        (∀ b2 ∈ (mark_payment_as_paid db bid now).2,
          b2.booking_status ∈ validBookingStatuses) ∧
        (∀ b2 ∈ (add_service_charge db bid description amount newServiceCharge
            newTotal now).2, b2.booking_status ∈ validBookingStatuses) ∧
        (∀ b2 ∈ (complete_booking db bid rating feedback now).2,
          b2.booking_status ∈ validBookingStatuses) ∧
        (∀ b2 ∈ (set_payment_deadline db bid now).2,
          b2.booking_status ∈ validBookingStatuses) ∧
        (∀ b2 ∈ (check_expired_bookings db now).2,
          b2.booking_status ∈ validBookingStatuses))) := by
  constructor
  · refine ⟨?_, ?_, ?_, ?_, ?_, ?_⟩
    · unfold update_booking_status
      split
      · rw [rowUpdate_snd]
        exact rowPred_map _ db _ hpay (rowPred_ite _ _ _ fun b hb => hb)
      · split
        · rw [rowUpdate_snd]
          exact rowPred_map _ db _ hpay (rowPred_ite _ _ _ fun b hb => hb)
        · rw [rowUpdate_snd]
          exact rowPred_map _ db _ hpay (rowPred_ite _ _ _ fun b hb => hb)
    · unfold mark_payment_as_paid
      rw [rowUpdate_snd]
      exact rowPred_map _ db _ hpay (rowPred_ite _ _ _ fun b hb =>
        show ("paid" : String) ∈ ["unpaid", "paid"] by decide)
    · unfold add_service_charge
      rw [rowUpdate_snd]
      exact rowPred_map _ db _ hpay (rowPred_ite _ _ _ fun b hb => hb)
    · unfold complete_booking
      rw [rowUpdate_snd]
      exact rowPred_map _ db _ hpay (rowPred_ite _ _ _ fun b hb => hb)
    · unfold set_payment_deadline
      rw [rowUpdate_snd]
      exact rowPred_map _ db _ hpay (rowPred_ite _ _ _ fun b hb => hb)
    · rw [check_expired_snd]
      exact rowPred_map _ db _ hpay (rowPred_ite _ _ _ fun b hb => hb)
  · intro hbs hstatus
    refine ⟨?_, ?_, ?_, ?_, ?_, ?_⟩
    · unfold update_booking_status
      split
      · rw [rowUpdate_snd]
        exact rowPred_map _ db _ hbs (rowPred_ite _ _ _ fun b hb => hstatus)
      · split
        · rw [rowUpdate_snd]
          exact rowPred_map _ db _ hbs (rowPred_ite _ _ _ fun b hb => hstatus)
        · rw [rowUpdate_snd]
          exact rowPred_map _ db _ hbs (rowPred_ite _ _ _ fun b hb => hstatus)
    · unfold mark_payment_as_paid
      rw [rowUpdate_snd]
      exact rowPred_map _ db _ hbs (rowPred_ite _ _ _ fun b hb => hb)
    · unfold add_service_charge
      rw [rowUpdate_snd]
      exact rowPred_map _ db _ hbs (rowPred_ite _ _ _ fun b hb => hb)
    · unfold complete_booking
      rw [rowUpdate_snd]
      exact rowPred_map _ db _ hbs (rowPred_ite _ _ _ fun b hb =>
        show ("completed" : String) ∈ validBookingStatuses by decide)
    · unfold set_payment_deadline
      rw [rowUpdate_snd]
      exact rowPred_map _ db _ hbs (rowPred_ite _ _ _ fun b hb => hb)
    · rw [check_expired_snd]
      exact rowPred_map _ db _ hbs (rowPred_ite _ _ _ fun b hb =>
        show ("cancelled" : String) ∈ validBookingStatuses by decide)

/-- C4 amended witness: the payment_status clause holds even for a call
that supplies the out-of-set status banana, and the booking_status
clause holds for a concrete approval call. -/
theorem booking_status_set_preserved_witness :
    (∀ b ∈ [exampleBooking], b.payment_status ∈ ["unpaid", "paid"]) ∧
    (∀ b2 ∈ (update_booking_status [exampleBooking] 1 "banana" none 50).2,
      b2.payment_status ∈ ["unpaid", "paid"]) ∧
    (∀ b ∈ [exampleBooking], b.booking_status ∈ validBookingStatuses) ∧
    ("approved" ∈ validBookingStatuses) ∧
    (∀ b2 ∈ (update_booking_status [exampleBooking] 1 "approved" none 50).2,
      b2.booking_status ∈ validBookingStatuses) := by
  have hpay : ∀ b ∈ [exampleBooking], b.payment_status ∈ ["unpaid", "paid"] := by
    intro b hb
    rw [List.mem_singleton] at hb
    subst hb
    decide
  have hbs : ∀ b ∈ [exampleBooking], b.booking_status ∈ validBookingStatuses := by
    intro b hb
    rw [List.mem_singleton] at hb
    subst hb
    decide
  refine ⟨hpay, ?_, hbs, by decide, ?_⟩
  · exact (booking_status_set_preserved [exampleBooking] 1 50 "banana" none
      "d" 0 0 0 none none hpay).1.1
  · exact ((booking_status_set_preserved [exampleBooking] 1 50 "approved" none
      "d" 0 0 0 none none hpay).2 hbs (by decide)).1

end ZafsKitchen

namespace ZafsKitchen

/-- C5 counterexample: update-booking-status called with status cancelled
takes its generic branch, which stores booking_status cancelled and sets
cancellation_reason to null on the targeted row. -/
theorem cancelled_without_reason :
    ((update_booking_status [exampleBooking] 1 "cancelled" none 50).2.map
      fun b => (b.booking_status, b.cancellation_reason)) =
      [("cancelled", none)] := by
  decide

/-- C5 amended: the expiry sweep preserves the invariant that a cancelled
booking carries a non-null cancellation reason (it stamps the fixed
reason on every row it cancels), but update-booking-status called with
status cancelled stores cancellation_reason null on the targeted row, so
the invariant does not survive that call. -/
theorem cancelled_reason_invariant (db : List Booking) (bid now : Nat)
    (reason : Option String)
    (hdb : ∀ b ∈ db, b.booking_status = "cancelled" →
      b.cancellation_reason ≠ none) :
    (∀ b2 ∈ (check_expired_bookings db now).2,
      b2.booking_status = "cancelled" → b2.cancellation_reason ≠ none) ∧
    (∀ b2 ∈ (update_booking_status db bid "cancelled" reason now).2,
      b2.id = bid →
        b2.booking_status = "cancelled" ∧ b2.cancellation_reason = none) := by
  constructor
  · rw [check_expired_snd]
    intro b2 hb2
    rcases List.mem_map.mp hb2 with ⟨a, ha, rfl⟩
    by_cases hc : expiredCond now a = true
    · simp [hc, cancelSet]
    · have hc2 : expiredCond now a = false := by simpa using hc
      simp only [hc2, Bool.false_eq_true, if_false]
      exact hdb a ha
  · have hbr : (("cancelled" : String) == "rejected") = false := by decide
    have hba : (("cancelled" : String) == "approved") = false := by decide
    unfold update_booking_status
    rw [hbr, hba]
    simp only [Bool.false_and, Bool.false_eq_true, if_false]
    rw [rowUpdate_snd]
    intro b2 hb2
    rcases List.mem_map.mp hb2 with ⟨a, ha, rfl⟩
    by_cases hid : (a.id == bid) = true
    · simp [hid]
    · have hid2 : (a.id == bid) = false := by simpa using hid
      simp only [hid2, Bool.false_eq_true, if_false]
      intro hcontra
      have : a.id ≠ bid := by simpa using hid2
      exact absurd hcontra this

/-- C5 amended witness: one concrete cancel call; the caller even passes
a reason, and the stored row still carries none. -/
theorem cancelled_reason_invariant_witness :
    (∀ b ∈ [exampleBooking], b.booking_status = "cancelled" →
      b.cancellation_reason ≠ none) ∧
    (∀ b2 ∈ (update_booking_status [exampleBooking] 1 "cancelled"
        (some "late") 50).2,
      b2.id = 1 →
        b2.booking_status = "cancelled" ∧ b2.cancellation_reason = none) := by
  have hdb : ∀ b ∈ [exampleBooking], b.booking_status = "cancelled" →
      b.cancellation_reason ≠ none := by
    intro b hb
    rw [List.mem_singleton] at hb
    subst hb
    intro h
    exact absurd h (by decide)
  exact ⟨hdb,
    (cancelled_reason_invariant [exampleBooking] 1 50 (some "late") hdb).2⟩

end ZafsKitchen

namespace ZafsKitchen

/-- C3: verify-otp succeeds exactly when the email matches the configured
admin email up to letter case, an entry for that email is in the store,
the current time is not past the stored expiry, and the submitted code
equals the stored one; every failure answers success false with no
token, and success carries the session token. -/
theorem verify_otp_spec (store : OtpStore) (adminEmail email otp tok : String)
    (now : Nat) :
    ((verify_otp store adminEmail email otp now tok).1.success = true ↔
      (toLowerCase email = toLowerCase adminEmail ∧
        ∃ e, mapGet store email = some e ∧ ¬ now > e.expires ∧ e.otp = otp)) ∧
    ((verify_otp store adminEmail email otp now tok).1.success = false →
      (verify_otp store adminEmail email otp now tok).1.token = none) ∧
    ((verify_otp store adminEmail email otp now tok).1.success = true →
      (verify_otp store adminEmail email otp now tok).1.token = some tok) := by
  obtain ⟨h1, _, h3, h4⟩ :=
    verify_otp_characterization store adminEmail email otp tok now
  refine ⟨?_, h3, h4⟩
  rw [h1]
  constructor
  · rintro ⟨ha, rest⟩
    exact ⟨by simpa using ha, rest⟩
  · rintro ⟨ha, rest⟩
    exact ⟨by simpa using ha, rest⟩

/-- C3 witness: a verification that succeeds with a differently-cased
admin email and a live, matching entry. -/
theorem verify_otp_spec_witness :
    (verify_otp [("a@b", { otp := "123456", expires := 100 })] "A@B" "a@b"
      "123456" 50 "tok").1.success = true := by
  have h := (verify_otp_spec [("a@b", { otp := "123456", expires := 100 })]
    "A@B" "a@b" "123456" "tok" 50).1
  exact h.mpr ⟨by decide,
    { otp := "123456", expires := 100 }, by decide, by decide, rfl⟩

/-- C6: a successful verify-otp deletes the stored entry for that email,
so an immediate second verify-otp with the same email and code fails. -/
theorem verify_otp_single_use (store : OtpStore)
    (adminEmail email otp tok : String) (now : Nat)
    (h : (verify_otp store adminEmail email otp now tok).1.success = true) :
    mapGet (verify_otp store adminEmail email otp now tok).2 email = none ∧
    ∀ now2 tok2,
      (verify_otp (verify_otp store adminEmail email otp now tok).2
        adminEmail email otp now2 tok2).1.success = false := by
  obtain ⟨_, h2, _, _⟩ :=
    verify_otp_characterization store adminEmail email otp tok now
  have hdel := h2 h
  constructor
  · rw [hdel]
    exact mapGet_mapDelete_self store email
  · intro now2 tok2
    cases hb : (verify_otp (verify_otp store adminEmail email otp now tok).2
        adminEmail email otp now2 tok2).1.success with
    | false => rfl
    | true =>
        obtain ⟨h1b, _, _, _⟩ := verify_otp_characterization
          ((verify_otp store adminEmail email otp now tok).2)
          adminEmail email otp tok2 now2
        rcases h1b.mp hb with ⟨_, e, hget, _, _⟩
        rw [hdel, mapGet_mapDelete_self] at hget
        exact Option.noConfusion hget

/-- C6 witness: a concrete success followed by a failing replay of the
same email and code. -/
theorem verify_otp_single_use_witness :
    ((verify_otp [("a@b", { otp := "123456", expires := 100 })] "a@b" "a@b"
      "123456" 50 "tok").1.success = true) ∧
    (verify_otp (verify_otp [("a@b", { otp := "123456", expires := 100 })]
        "a@b" "a@b" "123456" 50 "tok").2
      "a@b" "a@b" "123456" 60 "tok2").1.success = false := by
  have hsuc : (verify_otp [("a@b", { otp := "123456", expires := 100 })]
      "a@b" "a@b" "123456" 50 "tok").1.success = true := by decide
  exact ⟨hsuc,
    (verify_otp_single_use [("a@b", { otp := "123456", expires := 100 })]
      "a@b" "a@b" "123456" "tok" 50 hsuc).2 60 "tok2"⟩

end ZafsKitchen

namespace ZafsKitchen

/-- C7: a send-otp for anything but the admin email (compared without
letter case) fails and leaves the store unchanged; for the admin email
the drawn code is the decimal string of an integer between 100000 and
999999 and is stored under that email with expiry exactly 5 minutes
(5 * 60 * 1000 milliseconds) after the current time. -/
theorem send_otp_spec (store : OtpStore) (adminEmail email : String)
    (now : Nat) (q : ℚ) (emailOk : Bool) (hq0 : 0 ≤ q) (hq1 : q < 1) :
    (toLowerCase email ≠ toLowerCase adminEmail →
      send_otp store adminEmail email now q emailOk =
        ({ success := false,
           message := "Unauthorized email. Only admin can access this system." },
         store)) ∧
    (toLowerCase email = toLowerCase adminEmail →
      100000 ≤ genOtpNum q ∧ genOtpNum q ≤ 999999 ∧
      genOtp q = toString (genOtpNum q) ∧
      mapGet (send_otp store adminEmail email now q emailOk).2 email =
        some { otp := genOtp q, expires := now + 5 * 60 * 1000 }) := by
  constructor
  · intro hne
    have hbeq : (toLowerCase email == toLowerCase adminEmail) = false := by
      simpa using hne
    unfold send_otp
    simp [hbeq]
  · intro heq
    have hbeq : (toLowerCase email == toLowerCase adminEmail) = true := by
      simpa using heq
    obtain ⟨hlo, hhi⟩ := genOtpNum_bounds q hq0 hq1
    refine ⟨hlo, hhi, rfl, ?_⟩
    rw [send_otp_snd_admin store adminEmail email now q emailOk hbeq]
    exact mapGet_mapSet_self store email _

/-- C7 witness: the bounds and the stored entry for a concrete admin
send with sample one half, and the unchanged store for a stranger. -/
theorem send_otp_spec_witness :
    ((0 : ℚ) ≤ 1 / 2 ∧ (1 / 2 : ℚ) < 1) ∧
    (100000 ≤ genOtpNum (1 / 2) ∧ genOtpNum (1 / 2) ≤ 999999 ∧
      genOtp (1 / 2) = toString (genOtpNum (1 / 2)) ∧
      mapGet (send_otp [] "a@b" "a@b" 7 (1 / 2) true).2 "a@b" =
        some { otp := genOtp (1 / 2), expires := 7 + 5 * 60 * 1000 }) ∧
    send_otp [] "a@b" "x@y" 7 (1 / 2) true =
      ({ success := false,
         message := "Unauthorized email. Only admin can access this system." },
       []) := by
  have h1 := send_otp_spec [] "a@b" "a@b" 7 (1 / 2) true
    (by norm_num) (by norm_num)
  have h2 := send_otp_spec [] "a@b" "x@y" 7 (1 / 2) true
    (by norm_num) (by norm_num)
  exact ⟨⟨by norm_num, by norm_num⟩, h1.2 rfl, h2.1 (by decide)⟩

/-- C10 counterexample: two send-otp calls can draw the same random
sample, so the code issued by the first send still verifies after the
second send has overwritten the entry with an identical code. -/
theorem otp_resend_same_code_still_verifies :
    (verify_otp
      (send_otp (send_otp [] "a@b" "a@b" 0 0 true).2 "a@b" "a@b" 10 0 true).2
      "a@b" "a@b" (genOtp 0) 20 "tok").1.success = true := by
  rw [send_otp_snd_admin _ _ _ _ _ _ (by simp),
    send_otp_snd_admin _ _ _ _ _ _ (by simp)]
  have h := (verify_otp_characterization
    (mapSet (mapSet [] "a@b" { otp := genOtp 0, expires := 0 + 5 * 60 * 1000 })
      "a@b" { otp := genOtp 0, expires := 10 + 5 * 60 * 1000 })
    "a@b" "a@b" (genOtp 0) "tok" 20).1
  exact h.mpr ⟨by simp,
    { otp := genOtp 0, expires := 10 + 5 * 60 * 1000 },
    mapGet_mapSet_self _ _ _, by decide, rfl⟩

/-- C10 amended: after a send-otp for the admin email the store holds at
most one entry under that email key, and a previously issued code still
verifies only when it coincides with the newly drawn code: whenever the
old code differs from the new one, verification with the old code
fails. -/
theorem otp_overwrite_spec (store : OtpStore)
    (adminEmail email oldOtp tok : String) (now1 now2 now3 : Nat)
    (q1 q2 : ℚ) (ok1 ok2 : Bool)
    (hadmin : toLowerCase email = toLowerCase adminEmail)
    (hne : oldOtp ≠ genOtp q2) :
    ((send_otp (send_otp store adminEmail email now1 q1 ok1).2
        adminEmail email now2 q2 ok2).2.filter
      (fun p => p.1 == email)).length ≤ 1 ∧
    (verify_otp (send_otp (send_otp store adminEmail email now1 q1 ok1).2
        adminEmail email now2 q2 ok2).2
      adminEmail email oldOtp now3 tok).1.success = false := by
  have hbeq : (toLowerCase email == toLowerCase adminEmail) = true := by
    simpa using hadmin
  rw [send_otp_snd_admin _ _ _ _ _ _ hbeq, send_otp_snd_admin _ _ _ _ _ _ hbeq]
  constructor
  · rw [filter_mapSet_key]
    simp
  · cases hb : (verify_otp (mapSet
        (mapSet store email { otp := genOtp q1, expires := now1 + 5 * 60 * 1000 })
        email { otp := genOtp q2, expires := now2 + 5 * 60 * 1000 })
      adminEmail email oldOtp now3 tok).1.success with
    | false => rfl
    | true =>
        have h1 := (verify_otp_characterization (mapSet
            (mapSet store email
              { otp := genOtp q1, expires := now1 + 5 * 60 * 1000 })
            email { otp := genOtp q2, expires := now2 + 5 * 60 * 1000 })
          adminEmail email oldOtp tok now3).1
        rcases h1.mp hb with ⟨_, e, hget, _, hotp⟩
        rw [mapGet_mapSet_self, Option.some.injEq] at hget
        subst hget
        exact absurd hotp.symm hne

/-- C10 amended witness: the first code 100000 no longer verifies after
a second send that draws one half, whose code is 550000. -/
theorem otp_overwrite_spec_witness :
    (toLowerCase "a@b" = toLowerCase "a@b" ∧ "100000" ≠ genOtp (1 / 2)) ∧
    (verify_otp (send_otp (send_otp [] "a@b" "a@b" 0 0 true).2
        "a@b" "a@b" 10 (1 / 2) true).2
      "a@b" "a@b" "100000" 20 "tok").1.success = false := by
  have hne : ("100000" : String) ≠ genOtp (1 / 2) := by
    have h5 : genOtpNum (1 / 2) = 550000 := by norm_num [genOtpNum, Rat.floor]
    unfold genOtp
    rw [h5]
    decide
  exact ⟨⟨rfl, hne⟩,
    (otp_overwrite_spec [] "a@b" "a@b" "100000" "tok" 0 10 20 0 (1 / 2)
      true true rfl hne).2⟩

end ZafsKitchen
